import Mathlib

/-!
Shallow embedding of the EMM Identification procedure of openair-cn
(src/nas/emm/Identification.c) together with the slices of its collaborators
(EMM data context store, MME-APP UE context store, NAS timer service, EMM SAP
dispatcher) that the procedure manipulates.

The C code is event driven and mutates a global store `_emm_data` plus the
MME-APP store `mme_app_desc.mme_ue_contexts`; the embedding threads an explicit
`GState` through every operation and collects the primitives handed to
`emm_sap_send` / `nas_itti_esm_detach_ind` in a list, in emission order.
Machine integers (ue ids, imsi64 values, causes) are modelled as `Nat`; none of
the manipulated quantities can overflow in the modelled scenarios.
-/

namespace OpenAirCn

/-- EMM registration fsm states (emm_fsm_state_t); the Identification start
gate only distinguishes EMM_DEREGISTERED and EMM_REGISTERED from every other
state, of which a few representatives are kept. -/
inductive EmmFsmState
  | invalid
  | deregistered
  | registered
  | deregisteredInitiated
  | commonProcedureInitiated
  deriving DecidableEq, Repr

/-- Requested identity type (identity_type2_t). -/
inductive IdentityType
  | notAvailable
  | imsi
  | imei
  | imeisv
  | tmsi
  deriving DecidableEq, Repr

/-- EMM_CAUSE_ILLEGAL_UE of 3GPP TS 24.301 (emm_cause value 3). -/
def EMM_CAUSE_ILLEGAL_UE : Nat := 3

/-- Modelled from the spec: IDENTIFICATION_COUNTER_MAX is defined in a NAS
header that is not part of the sources; the spec fixes the reference behaviour
at 5 attempts total (1 initial send + 4 timeout driven retries). -/
def IDENTIFICATION_COUNTER_MAX : Nat := 5

/-- Slice of nas_emm_specific_proc_t that the Identification procedure touches
through its parent back-reference: the retry timer and the recorded stale
(old) ue id. -/
structure SpecificProc where
  retryTimerActive : Bool
  oldUeId : Option Nat
  deriving DecidableEq, Repr

/-- nas_emm_ident_proc_t: the Identification common procedure. The timer
handle T3470 is modelled by its armed/inactive status; the C field
T3470.id equal to NAS_TIMER_INACTIVE_ID corresponds to t3470Active = false.
The parent pointer of the base procedure is modelled by value: the C code
mutates the parent only through this back-reference. -/
structure IdentProc where
  identityType : IdentityType
  retransmissionCount : Nat
  ueId : Nat
  parent : Option SpecificProc
  previousEmmFsmState : EmmFsmState
  t3470Active : Bool
  deriving DecidableEq, Repr

/-- Modelled from the spec: the per-context procedure bookkeeping
(nas_procedures.c, not part of the sources) keeps the common procedures of a
context in a list; the Identification entry is found by its procedure-type
discriminant, other common procedures (authentication, smc, guti realloc) are
opaque here. -/
inductive CommonProcEntry
  | identEntry (p : IdentProc)
  | otherEntry (tag : Nat)
  deriving DecidableEq, Repr

/-- emm_data_context_t slice: ue id, fsm state, the common procedures, the
valid identities and the emm cause used when a context is marked for implicit
removal. -/
structure EmmContext where
  ueId : Nat
  fsmState : EmmFsmState
  commonProcs : List CommonProcEntry
  imsi : Option Nat
  imei : Option Nat
  imeisv : Option Nat
  emmCause : Option Nat
  deriving DecidableEq, Repr

/-- Global mutable state touched by Identification.c: the EMM context store
with its imsi index (_emm_data) and the imsi index of the MME-APP UE context
store (mme_app_desc.mme_ue_contexts). -/
structure GState where
  emmCtxs : List EmmContext
  imsiToUe : List (Nat × Nat)
  mmeAppImsiToUe : List (Nat × Nat)
  deriving DecidableEq, Repr

/-- Primitives handed to the SAP dispatcher (emm_sap_send) or to the ITTI
layer (nas_itti_esm_detach_ind) by the Identification procedure. -/
inductive Primitive
  | commonProcReq (ueId : Nat)
  | commonProcCnf (ueId : Nat) (notify free : Bool)
  | commonProcAbort (ueId : Nat) (notify free : Bool)
  | securityReq (ueId : Nat) (identType : IdentityType)
  | implicitDetach (ueId cause detachType : Nat)
  | esmDetachInd (ueId : Nat)
  deriving DecidableEq, Repr

/-- RETURNok / RETURNerror of common_defs.h, plus the aborted-process outcome
of an AssertFatal. -/
inductive Rc
  | ok
  | error
  | fatal
  deriving DecidableEq, Repr

/-- Result of one operation: the new global state, the primitives emitted in
order, and the return code. -/
structure StepOut where
  st : GState
  prims : List Primitive
  rc : Rc
  deriving DecidableEq, Repr

/-- Modelled from the spec: keyed context lookup of the Subscriber Context
Store (emm_data_context_get walks the store by mme_ue_s1ap_id). -/
def ctxFind : List EmmContext → Nat → Option EmmContext
  | [], _ => none
  | c :: rest, uid => if c.ueId = uid then some c else ctxFind rest uid

/-- emm_data_context_get on the global store. -/
def emm_data_context_get (st : GState) (ueId : Nat) : Option EmmContext :=
  ctxFind st.emmCtxs ueId

/-- Write back a context into the store, replacing the entry with the same
ue id (C code mutates the stored context in place through a pointer). -/
def ctxReplace : List EmmContext → EmmContext → List EmmContext
  | [], _ => []
  | c :: rest, c' => if c.ueId = c'.ueId then c' :: ctxReplace rest c' else c :: ctxReplace rest c'

/-- Store write-back on the global state. -/
def ctxStore (st : GState) (c : EmmContext) : GState :=
  { st with emmCtxs := ctxReplace st.emmCtxs c }

/-- Association lookup used for both imsi indexes. -/
def lookupNat : List (Nat × Nat) → Nat → Option Nat
  | [], _ => none
  | (k, v) :: rest, m => if k = m then some v else lookupNat rest m

/-- Remove a key from an association list (used by the upsert). -/
def removeKey : List (Nat × Nat) → Nat → List (Nat × Nat)
  | [], _ => []
  | (k, v) :: rest, m => if k = m then removeKey rest m else (k, v) :: removeKey rest m

/-- Modelled from the spec: emm_data_context_get_by_imsi resolves the imsi
index of _emm_data to a ue id and returns that context. -/
def emm_data_context_get_by_imsi (st : GState) (imsi64 : Nat) : Option EmmContext :=
  match lookupNat st.imsiToUe imsi64 with
  | some uid => emm_data_context_get st uid
  | none => none

/-- Modelled from the spec: emm_data_context_upsert_imsi indexes the context
by its (just committed) imsi64 in _emm_data. -/
def emm_data_context_upsert_imsi (st : GState) (imsi64 ueId : Nat) : GState :=
  { st with imsiToUe := (imsi64, ueId) :: removeKey st.imsiToUe imsi64 }

/-- Modelled from the spec: mme_ue_context_exists_imsi resolves the imsi index
of the MME-APP UE context store to the mme_ue_s1ap_id of the session binding. -/
def mme_ue_context_exists_imsi (st : GState) (imsi64 : Nat) : Option Nat :=
  lookupNat st.mmeAppImsiToUe imsi64

/-- First Identification entry of a context's common procedure list. -/
def findIdent : List CommonProcEntry → Option IdentProc
  | [] => none
  | .identEntry p :: _ => some p
  | .otherEntry _ :: rest => findIdent rest

/-- Replace the first Identification entry (the C code mutates the found
procedure object in place). A list with no Identification entry is returned
unchanged. -/
def putIdent : List CommonProcEntry → IdentProc → List CommonProcEntry
  | [], _ => []
  | .identEntry _ :: rest, p => .identEntry p :: rest
  | .otherEntry t :: rest, p => .otherEntry t :: putIdent rest p

/-- Number of Identification entries in a common procedure list. -/
def countIdent : List CommonProcEntry → Nat
  | [] => 0
  | .identEntry _ :: rest => countIdent rest + 1
  | .otherEntry _ :: rest => countIdent rest

/-- get_nas_common_procedure_identification on a context. -/
def get_nas_common_procedure_identification (c : EmmContext) : Option IdentProc :=
  findIdent c.commonProcs

/-- Modelled from the spec: nas_new_identification_procedure allocates a
zero-initialised Identification procedure and links it into the context's
common procedure list. -/
def newIdentProc : IdentProc :=
  { identityType := .notAvailable
    retransmissionCount := 0
    ueId := 0
    parent := none
    previousEmmFsmState := .invalid
    t3470Active := false }

/-- Modelled from the spec: nas_delete_all_emm_procedures releases every
procedure object of the context. -/
def nas_delete_all_emm_procedures (c : EmmContext) : EmmContext :=
  { c with commonProcs := [] }

/-- Modelled from the spec: external removal of a context from the store (the
registration layer, reached synchronously through emm_sap_send on the abort
primitive, may release the UE context before the handler resumes). -/
def ctxRemove (st : GState) (ueId : Nat) : GState :=
  { st with emmCtxs := st.emmCtxs.filter (fun c => c.ueId != ueId) }

/-- _identification_request: sends the IDENTITY REQUEST (EMMAS_SECURITY_REQ)
and starts T3470 on send success. If the context is absent from the store the
routine returns RETURNerror without emitting anything or touching any timer.
The Boolean sendOk stands for the return code of emm_sap_send on the security
request (the dispatcher and access stratum are external). -/
def identification_request (st : GState) (proc : IdentProc) (sendOk : Bool) : StepOut :=
  match emm_data_context_get st proc.ueId with
  | none => ⟨st, [], .error⟩
  | some ctx =>
      let prim := Primitive.securityReq proc.ueId proc.identityType
      if sendOk then
        let armed := { proc with t3470Active := true }
        let ctx' := { ctx with commonProcs := putIdent ctx.commonProcs armed }
        ⟨ctxStore st ctx', [prim], .ok⟩
      else
        ⟨st, [prim], .error⟩

/-- emm_proc_identification: gate on the fsm state, get-or-create the
Identification procedure, reset its fields, send the initial request and, when
the send did not fail, notify the registration layer (EMMREG_COMMON_PROC_REQ). -/
def emm_proc_identification (st : GState) (ueId : Nat) (emmProc : Option SpecificProc)
    (idType : IdentityType) (sendOk : Bool) : StepOut :=
  match emm_data_context_get st ueId with
  | none => ⟨st, [], .error⟩
  | some ctx =>
      if ctx.fsmState = .deregistered ∨ ctx.fsmState = .registered then
        let ctx1 :=
          match findIdent ctx.commonProcs with
          | some _ => ctx
          | none => { ctx with commonProcs := CommonProcEntry.identEntry newIdentProc :: ctx.commonProcs }
        let proc0 := (findIdent ctx1.commonProcs).getD newIdentProc
        let proc1 : IdentProc :=
          { proc0 with
            identityType := idType
            retransmissionCount := 0
            ueId := ueId
            parent := emmProc
            previousEmmFsmState := ctx1.fsmState }
        let ctx2 := { ctx1 with commonProcs := putIdent ctx1.commonProcs proc1 }
        let st1 := ctxStore st ctx2
        let out := identification_request st1 proc1 sendOk
        if out.rc ≠ Rc.error then
          ⟨out.st, out.prims ++ [Primitive.commonProcReq ueId], Rc.ok⟩
        else
          ⟨out.st, out.prims, Rc.error⟩
      else
        ⟨st, [], .error⟩

/-- _identification_t3470_handler: marks the fired timer inactive, increments
the retransmission counter; below IDENTIFICATION_COUNTER_MAX it re-sends the
request, otherwise it emits EMMREG_COMMON_PROC_ABORT, deletes every procedure
of the context and, depending on whether the context still exists after the
abort dispatch (abortRemovesCtx models the external release), emits either an
implicit detach or the ITTI esm detach indication. -/
def identification_t3470_handler (st : GState) (ueId : Nat)
    (sendOk abortRemovesCtx : Bool) : GState × List Primitive :=
  match emm_data_context_get st ueId with
  | none => (st, [])
  | some ctx =>
      match findIdent ctx.commonProcs with
      | none => (st, [])
      | some proc =>
          let proc1 := { proc with
            t3470Active := false
            retransmissionCount := proc.retransmissionCount + 1 }
          let ctx1 := { ctx with commonProcs := putIdent ctx.commonProcs proc1 }
          let st1 := ctxStore st ctx1
          if proc1.retransmissionCount < IDENTIFICATION_COUNTER_MAX then
            let out := identification_request st1 proc1 sendOk
            (out.st, out.prims)
          else
            let abortPrim := Primitive.commonProcAbort proc.ueId false true
            let st2 := if abortRemovesCtx then ctxRemove st1 proc.ueId else st1
            let st3 :=
              match emm_data_context_get st2 proc.ueId with
              | some c => ctxStore st2 (nas_delete_all_emm_procedures c)
              | none => st2
            match emm_data_context_get st3 proc.ueId with
            | some _ => (st3, [abortPrim, Primitive.implicitDetach proc.ueId 0 0])
            | none => (st3, [abortPrim, Primitive.esmDetachInd proc.ueId])

/-- Modelled from the spec: the timer service fires the T3470 callback only if
the handle is still armed (cancel-before-fire contract); a disarmed timer
produces no event. -/
def t3470_fire (st : GState) (ueId : Nat) (sendOk abortRemovesCtx : Bool) :
    GState × List Primitive :=
  match emm_data_context_get st ueId with
  | none => (st, [])
  | some ctx =>
      match findIdent ctx.commonProcs with
      | none => (st, [])
      | some p =>
          if p.t3470Active then identification_t3470_handler st ueId sendOk abortRemovesCtx
          else (st, [])

/-- _identification_non_delivered_ho: with both the context and the procedure
present, re-issues the identity request through _identification_request. -/
def identification_non_delivered_ho (st : GState) (ueId : Nat) (sendOk : Bool) : StepOut :=
  match emm_data_context_get st ueId with
  | none => ⟨st, [], .error⟩
  | some ctx =>
      match findIdent ctx.commonProcs with
      | none => ⟨st, [], .error⟩
      | some proc => identification_request st proc sendOk

/-- Restart (stop, then start) the retry timer of the parent specific
procedure of the Identification procedure and record the stale context's ue id
there. The C code dereferences the parent unconditionally; the update is a
no-op when no parent was linked. -/
def arm_parent_retry (p : IdentProc) (staleId : Nat) : IdentProc :=
  { p with parent := p.parent.map (fun sp =>
      { sp with retryTimerActive := true, oldUeId := some staleId }) }

/-- Conflict branch of emm_proc_identification_complete against a duplicate
EMM context: restart the parent retry timer recording the stale ue id, mark
the duplicate with EMM_CAUSE_ILLEGAL_UE, emit the implicit detach for it (with
the cause, detach_type left 0) and conclude this procedure with notify=false,
free_proc=true. -/
def complete_conflict_emm (st1 : GState) (ctx1 : EmmContext) (proc1 : IdentProc)
    (ueId : Nat) (dup : EmmContext) : StepOut :=
  let proc2 := arm_parent_retry proc1 dup.ueId
  let ctx2 := { ctx1 with commonProcs := putIdent ctx1.commonProcs proc2 }
  let st2 := ctxStore st1 ctx2
  let dup2 := { dup with emmCause := some EMM_CAUSE_ILLEGAL_UE }
  let st3 := ctxStore st2 dup2
  ⟨st3,
   [Primitive.implicitDetach dup.ueId EMM_CAUSE_ILLEGAL_UE 0,
    Primitive.commonProcCnf ueId false true],
   .ok⟩

/-- Conflict branch of emm_proc_identification_complete against a duplicate
MME-APP session binding: emit the esm detach indication for it, restart the
parent retry timer recording the stale ue id, conclude with notify=false,
free_proc=true. -/
def complete_conflict_mmeapp (st1 : GState) (ctx1 : EmmContext) (proc1 : IdentProc)
    (ueId dupId : Nat) : StepOut :=
  let proc2 := arm_parent_retry proc1 dupId
  let ctx2 := { ctx1 with commonProcs := putIdent ctx1.commonProcs proc2 }
  let st2 := ctxStore st1 ctx2
  ⟨st2,
   [Primitive.esmDetachInd dupId,
    Primitive.commonProcCnf ueId false true],
   .ok⟩

/-- No-conflict imsi path of emm_proc_identification_complete: commit the imsi
onto the context (emm_ctx_set_valid_imsi), index it
(emm_data_context_upsert_imsi) and conclude with notify=true, free_proc=true. -/
def complete_commit_imsi (st1 : GState) (ctx1 : EmmContext) (ueId imsi64 : Nat) : StepOut :=
  let ctx2 := { ctx1 with imsi := some imsi64 }
  let st2 := ctxStore st1 ctx2
  let st3 := emm_data_context_upsert_imsi st2 imsi64 ueId
  ⟨st3, [Primitive.commonProcCnf ueId true true], .ok⟩

/-- Second duplicate check of the imsi path of
emm_proc_identification_complete, against the MME-APP store. -/
def complete_imsi_phase2 (st1 : GState) (ctx1 : EmmContext) (proc1 : IdentProc)
    (ueId imsi64 : Nat) : StepOut :=
  match mme_ue_context_exists_imsi st1 imsi64 with
  | some dupId =>
      if dupId ≠ ctx1.ueId then complete_conflict_mmeapp st1 ctx1 proc1 ueId dupId
      else complete_commit_imsi st1 ctx1 ueId imsi64
  | none => complete_commit_imsi st1 ctx1 ueId imsi64

/-- Imsi path of emm_proc_identification_complete: duplicate EMM context check
first, then duplicate MME-APP binding check, else commit. -/
def complete_with_imsi (st1 : GState) (ctx1 : EmmContext) (proc1 : IdentProc)
    (ueId imsi64 : Nat) : StepOut :=
  match emm_data_context_get_by_imsi st1 imsi64 with
  | some dup =>
      if dup.ueId ≠ ctx1.ueId then complete_conflict_emm st1 ctx1 proc1 ueId dup
      else complete_imsi_phase2 st1 ctx1 proc1 ueId imsi64
  | none => complete_imsi_phase2 st1 ctx1 proc1 ueId imsi64

/-- emm_proc_identification_complete: silently ignores the response when the
context or the Identification procedure is missing; otherwise stops T3470
first, then dispatches on the learned identity (imsi with conflict
resolution, imei, imeisv; a tmsi response hits an AssertFatal) and concludes
with EMMREG_COMMON_PROC_CNF notify=true, free_proc=true on every
non-conflicting path. -/
def emm_proc_identification_complete (st : GState) (ueId : Nat)
    (imsiArg imeiArg imeisvArg tmsiArg : Option Nat) : StepOut :=
  match emm_data_context_get st ueId with
  | none => ⟨st, [], .error⟩
  | some ctx =>
      match findIdent ctx.commonProcs with
      | none => ⟨st, [], .error⟩
      | some proc =>
          let proc1 := { proc with t3470Active := false }
          let ctx1 := { ctx with commonProcs := putIdent ctx.commonProcs proc1 }
          let st1 := ctxStore st ctx1
          match imsiArg with
          | some m => complete_with_imsi st1 ctx1 proc1 ueId m
          | none =>
              match imeiArg with
              | some ei =>
                  let ctx2 := { ctx1 with imei := some ei }
                  let st2 := ctxStore st1 ctx2
                  ⟨st2, [Primitive.commonProcCnf ueId true true], .ok⟩
              | none =>
                  match imeisvArg with
                  | some sv =>
                      let ctx2 := { ctx1 with imeisv := some sv }
                      let st2 := ctxStore st1 ctx2
                      ⟨st2, [Primitive.commonProcCnf ueId true true], .ok⟩
                  | none =>
                      match tmsiArg with
                      | some _ => ⟨st1, [], .fatal⟩
                      | none => ⟨st1, [Primitive.commonProcCnf ueId true true], .ok⟩

/-! Helper lemmas about the store and the procedure list. -/

theorem ctxFind_ueId {l : List EmmContext} {uid : Nat} {c : EmmContext}
    (h : ctxFind l uid = some c) : c.ueId = uid := by
  induction l with
  | nil => simp [ctxFind] at h
  | cons a rest ih =>
      by_cases ha : a.ueId = uid
      · simp only [ctxFind, if_pos ha, Option.some.injEq] at h
        rw [← h]; exact ha
      · simp only [ctxFind, if_neg ha] at h
        exact ih h

theorem ctxFind_replace_self {l : List EmmContext} {uid : Nat} {c c' : EmmContext}
    (h : ctxFind l uid = some c) (h' : c'.ueId = uid) :
    ctxFind (ctxReplace l c') uid = some c' := by
  induction l with
  | nil => simp [ctxFind] at h
  | cons a rest ih =>
      by_cases ha : a.ueId = uid
      · have : a.ueId = c'.ueId := by rw [ha, h']
        simp only [ctxReplace, if_pos this, ctxFind, if_pos h']
      · simp only [ctxFind, if_neg ha] at h
        have hne : ¬ a.ueId = c'.ueId := by rw [h']; exact ha
        simp only [ctxReplace, if_neg hne, ctxFind, if_neg ha]
        exact ih h

theorem ctxFind_replace_ne {l : List EmmContext} {v : Nat} {c' : EmmContext}
    (h : v ≠ c'.ueId) : ctxFind (ctxReplace l c') v = ctxFind l v := by
  induction l with
  | nil => simp [ctxReplace]
  | cons a rest ih =>
      by_cases ha : a.ueId = c'.ueId
      · have hav : ¬ a.ueId = v := by rw [ha]; exact fun hv => h hv.symm
        have hcv : ¬ c'.ueId = v := fun hv => h hv.symm
        simp only [ctxReplace, if_pos ha, ctxFind, if_neg hav, if_neg hcv]
        exact ih
      · simp only [ctxReplace, if_neg ha, ctxFind]
        by_cases hav : a.ueId = v
        · simp only [if_pos hav]
        · simp only [if_neg hav]; exact ih

theorem ctxFind_filter_self (l : List EmmContext) (uid : Nat) :
    ctxFind (l.filter (fun c => c.ueId != uid)) uid = none := by
  induction l with
  | nil => simp [ctxFind]
  | cons a rest ih =>
      by_cases ha : a.ueId = uid
      · simp only [List.filter, ha, bne_self_eq_false]
        exact ih
      · have : (a.ueId != uid) = true := bne_iff_ne.mpr ha
        simp only [List.filter, this, ctxFind, if_neg ha]
        exact ih

theorem ctxReplace_ctxReplace {l : List EmmContext} {c c' : EmmContext}
    (h : c.ueId = c'.ueId) : ctxReplace (ctxReplace l c) c' = ctxReplace l c' := by
  induction l with
  | nil => simp [ctxReplace]
  | cons a rest ih =>
      by_cases ha : a.ueId = c.ueId
      · have ha' : a.ueId = c'.ueId := by rw [ha, h]
        simp only [ctxReplace, if_pos ha, if_pos h, if_pos ha', ih]
      · have ha' : ¬ a.ueId = c'.ueId := by rw [← h]; exact ha
        simp only [ctxReplace, if_neg ha, if_neg ha', ih]

theorem findIdent_putIdent {l : List CommonProcEntry} {p : IdentProc}
    (h : findIdent l = some p) (q : IdentProc) :
    findIdent (putIdent l q) = some q := by
  induction l with
  | nil => simp [findIdent] at h
  | cons a rest ih =>
      cases a with
      | identEntry r => simp [putIdent, findIdent]
      | otherEntry t =>
          simp only [findIdent] at h
          simp only [putIdent, findIdent]
          exact ih h

theorem putIdent_putIdent (l : List CommonProcEntry) (p q : IdentProc) :
    putIdent (putIdent l p) q = putIdent l q := by
  induction l with
  | nil => simp [putIdent]
  | cons a rest ih =>
      cases a with
      | identEntry r => simp [putIdent]
      | otherEntry t => simp only [putIdent, ih]

theorem countIdent_putIdent (l : List CommonProcEntry) (p : IdentProc) :
    countIdent (putIdent l p) = countIdent l := by
  induction l with
  | nil => simp [putIdent]
  | cons a rest ih =>
      cases a with
      | identEntry r => simp [putIdent, countIdent]
      | otherEntry t => simp only [putIdent, countIdent, ih]

theorem get_ctxStore_self {st : GState} {uid : Nat} {c c' : EmmContext}
    (h : emm_data_context_get st uid = some c) (h' : c'.ueId = uid) :
    emm_data_context_get (ctxStore st c') uid = some c' :=
  ctxFind_replace_self h h'

theorem get_ctxStore_ne {st : GState} {v : Nat} (c' : EmmContext)
    (h : v ≠ c'.ueId) :
    emm_data_context_get (ctxStore st c') v = emm_data_context_get st v :=
  ctxFind_replace_ne h

theorem get_ctxRemove_self (st : GState) (uid : Nat) :
    emm_data_context_get (ctxRemove st uid) uid = none :=
  ctxFind_filter_self st.emmCtxs uid

theorem ctxStore_ctxStore {st : GState} {c c' : EmmContext} (h : c.ueId = c'.ueId) :
    ctxStore (ctxStore st c) c' = ctxStore st c' := by
  simp [ctxStore, ctxReplace_ctxReplace h]

theorem ctxStore_ctxStore_procs (st : GState) (c : EmmContext)
    (l l' : List CommonProcEntry) :
    ctxStore (ctxStore st { c with commonProcs := l }) { c with commonProcs := l' } =
      ctxStore st { c with commonProcs := l' } :=
  ctxStore_ctxStore rfl

/-- The armed Identification procedure that emm_proc_identification leaves in
the store on a successful initial send. -/
def startedProc (ueId : Nat) (emmProc : Option SpecificProc) (idType : IdentityType)
    (prev : EmmFsmState) : IdentProc :=
  { identityType := idType
    retransmissionCount := 0
    ueId := ueId
    parent := emmProc
    previousEmmFsmState := prev
    t3470Active := true }

/-- Computation lemma: in a permitted fsm state with a successful send,
emm_proc_identification stores the (reused or freshly linked) armed procedure
and emits the identity request followed by the common-procedure notification. -/
theorem emm_proc_identification_ok_eq (st : GState) (ueId : Nat)
    (emmProc : Option SpecificProc) (idType : IdentityType) (ctx : EmmContext)
    (hget : emm_data_context_get st ueId = some ctx)
    (hcond : ctx.fsmState = .deregistered ∨ ctx.fsmState = .registered) :
    emm_proc_identification st ueId emmProc idType true =
      ⟨ctxStore st
        { ctx with commonProcs :=
            match findIdent ctx.commonProcs with
            | some _ => putIdent ctx.commonProcs (startedProc ueId emmProc idType ctx.fsmState)
            | none => CommonProcEntry.identEntry (startedProc ueId emmProc idType ctx.fsmState)
                :: ctx.commonProcs },
       [Primitive.securityReq ueId idType, Primitive.commonProcReq ueId], Rc.ok⟩ := by
  have hcu : ctx.ueId = ueId := ctxFind_ueId hget
  rcases hfi : findIdent ctx.commonProcs with _ | p
  · have hget2 : emm_data_context_get
        (ctxStore st
          { ctx with
            commonProcs := putIdent (CommonProcEntry.identEntry newIdentProc :: ctx.commonProcs)
                { newIdentProc with
                  identityType := idType, retransmissionCount := 0, ueId := ueId,
                  parent := emmProc, previousEmmFsmState := ctx.fsmState } })
        ueId =
        some
          { ctx with
            commonProcs := putIdent (CommonProcEntry.identEntry newIdentProc :: ctx.commonProcs)
                { newIdentProc with
                  identityType := idType, retransmissionCount := 0, ueId := ueId,
                  parent := emmProc, previousEmmFsmState := ctx.fsmState } } :=
      get_ctxStore_self hget hcu
    simp only [emm_proc_identification, hget, if_pos hcond, hfi, Option.getD,
      identification_request, putIdent, findIdent, startedProc]
    simp only [putIdent] at hget2
    rw [hget2]
    simp only [putIdent]
    rw [ctxStore_ctxStore_procs]
    simp
  · have hget2 : emm_data_context_get
        (ctxStore st
          { ctx with
            commonProcs := putIdent ctx.commonProcs
                { p with
                  identityType := idType, retransmissionCount := 0, ueId := ueId,
                  parent := emmProc, previousEmmFsmState := ctx.fsmState } })
        ueId =
        some
          { ctx with
            commonProcs := putIdent ctx.commonProcs
                { p with
                  identityType := idType, retransmissionCount := 0, ueId := ueId,
                  parent := emmProc, previousEmmFsmState := ctx.fsmState } } :=
      get_ctxStore_self hget hcu
    simp only [emm_proc_identification, hget, if_pos hcond, hfi, Option.getD,
      identification_request, startedProc]
    rw [hget2]
    have hpp : findIdent (putIdent ctx.commonProcs
          { p with
            identityType := idType, retransmissionCount := 0, ueId := ueId,
            parent := emmProc, previousEmmFsmState := ctx.fsmState }) =
        some
          { p with
            identityType := idType, retransmissionCount := 0, ueId := ueId,
            parent := emmProc, previousEmmFsmState := ctx.fsmState } :=
      findIdent_putIdent hfi _
    simp only [putIdent_putIdent]
    rw [ctxStore_ctxStore_procs]
    simp

/-! Concrete fixtures used by the witness theorems. -/

/-- A live Identification procedure of subscriber 1 awaiting a response. -/
def wProcA : IdentProc :=
  { identityType := .imsi
    retransmissionCount := 0
    ueId := 1
    parent := some { retryTimerActive := false, oldUeId := none }
    previousEmmFsmState := .deregistered
    t3470Active := true }

/-- A subscriber context holding the procedure wProcA. -/
def wCtxA : EmmContext :=
  { ueId := 1
    fsmState := .deregistered
    commonProcs := [CommonProcEntry.identEntry wProcA]
    imsi := none
    imei := none
    imeisv := none
    emmCause := none }

/-- A store holding only wCtxA. -/
def wStA : GState :=
  { emmCtxs := [wCtxA], imsiToUe := [], mmeAppImsiToUe := [] }

/-- The empty store. -/
def wStEmpty : GState :=
  { emmCtxs := [], imsiToUe := [], mmeAppImsiToUe := [] }

/-- wProcA after four timeouts: the next timeout reaches the maximum. -/
def wProcMax : IdentProc :=
  { wProcA with retransmissionCount := 4 }

/-- A subscriber context holding wProcMax. -/
def wCtxMax : EmmContext :=
  { wCtxA with commonProcs := [CommonProcEntry.identEntry wProcMax] }

/-- A store holding only wCtxMax. -/
def wStMax : GState :=
  { emmCtxs := [wCtxMax], imsiToUe := [], mmeAppImsiToUe := [] }

/-! Claim theorems. -/

/-- C6: starting an Identification procedure for a subscriber whose
registration state is neither deregistered nor registered returns an error
and performs no side effects (unchanged state, nothing emitted); when the
state permits and the initial request is sent successfully, the registration
layer is notified that a common procedure has begun. -/
theorem c6_start_state_gate (st : GState) (ueId : Nat) (emmProc : Option SpecificProc)
    (idType : IdentityType) (sendOk : Bool) (ctx : EmmContext)
    (hget : emm_data_context_get st ueId = some ctx) :
    (ctx.fsmState ≠ .deregistered → ctx.fsmState ≠ .registered →
       emm_proc_identification st ueId emmProc idType sendOk = ⟨st, [], Rc.error⟩) ∧
    ((ctx.fsmState = .deregistered ∨ ctx.fsmState = .registered) → sendOk = true →
       (emm_proc_identification st ueId emmProc idType sendOk).rc = Rc.ok ∧
       Primitive.commonProcReq ueId ∈ (emm_proc_identification st ueId emmProc idType sendOk).prims) := by
  constructor
  · intro h1 h2
    have hcond : ¬ (ctx.fsmState = .deregistered ∨ ctx.fsmState = .registered) := by
      rintro (h | h)
      · exact h1 h
      · exact h2 h
    simp [emm_proc_identification, hget, hcond]
  · intro hcond hso
    subst hso
    rw [emm_proc_identification_ok_eq st ueId emmProc idType ctx hget hcond]
    simp

/-- Witness for C6: an Identification start in a forbidden state is a no-op
error, and a permitted start notifies the registration layer. -/
theorem c6_start_state_gate_witness :
    emm_proc_identification
        ⟨[{ wCtxA with fsmState := .deregisteredInitiated }], [], []⟩ 1 none IdentityType.imsi true =
      ⟨⟨[{ wCtxA with fsmState := .deregisteredInitiated }], [], []⟩, [], Rc.error⟩ ∧
    Primitive.commonProcReq 1 ∈ (emm_proc_identification wStA 1 none IdentityType.imsi true).prims := by
  constructor
  · exact (c6_start_state_gate _ 1 none IdentityType.imsi true
      { wCtxA with fsmState := .deregisteredInitiated } (by decide)).1 (by decide) (by decide)
  · exact ((c6_start_state_gate wStA 1 none IdentityType.imsi true wCtxA (by decide)).2
      (Or.inl (by decide)) rfl).2

/-- C7: a call of emm_proc_identification_complete whose subscriber identifier
matches no context in the store, or matches a context with no live
Identification procedure, is a pure no-op: the state is returned unchanged and
no primitive is emitted (the stale response is silently ignored, rc stays
RETURNerror). -/
theorem c7_complete_noop (st : GState) (ueId : Nat)
    (imsiArg imeiArg imeisvArg tmsiArg : Option Nat)
    (h : emm_data_context_get st ueId = none ∨
         ∃ ctx, emm_data_context_get st ueId = some ctx ∧ findIdent ctx.commonProcs = none) :
    emm_proc_identification_complete st ueId imsiArg imeiArg imeisvArg tmsiArg =
      ⟨st, [], Rc.error⟩ := by
  rcases h with h | ⟨ctx, hget, hproc⟩
  · simp [emm_proc_identification_complete, h]
  · simp [emm_proc_identification_complete, hget, hproc]

/-- Witness for C7 at the empty store. -/
theorem c7_complete_noop_witness :
    emm_proc_identification_complete wStEmpty 1 (some 5) none none none =
      ⟨wStEmpty, [], Rc.error⟩ :=
  c7_complete_noop wStEmpty 1 (some 5) none none none (Or.inl rfl)

/-- C10: the single send routine _identification_request returns an error and
emits no primitive (and touches no timer) when the subscriber context is
absent from the store; when the context is present it hands exactly the
identity request to the access stratum, and it arms T3470 exactly on send
success: on a failed send the state is returned unchanged with RETURNerror,
on a successful send the stored procedure's T3470 is armed. -/
theorem c10_request_send_gate (st : GState) (proc : IdentProc) (sendOk : Bool) :
    (emm_data_context_get st proc.ueId = none →
        identification_request st proc sendOk = ⟨st, [], Rc.error⟩) ∧
    (∀ ctx, emm_data_context_get st proc.ueId = some ctx →
        (identification_request st proc sendOk).prims =
          [Primitive.securityReq proc.ueId proc.identityType] ∧
        (sendOk = false →
          identification_request st proc sendOk =
            ⟨st, [Primitive.securityReq proc.ueId proc.identityType], Rc.error⟩) ∧
        (sendOk = true → findIdent ctx.commonProcs = some proc →
          (identification_request st proc sendOk).rc = Rc.ok ∧
          ∃ c', emm_data_context_get (identification_request st proc sendOk).st proc.ueId = some c' ∧
            findIdent c'.commonProcs = some { proc with t3470Active := true })) := by
  refine ⟨?_, ?_⟩
  · intro h
    simp [identification_request, h]
  · intro ctx hget
    have hcu : ctx.ueId = proc.ueId := ctxFind_ueId hget
    refine ⟨?_, ?_, ?_⟩
    · cases sendOk <;> simp [identification_request, hget]
    · intro hso; subst hso; simp [identification_request, hget]
    · intro hso hp; subst hso
      have hst : (identification_request st proc true).st =
          ctxStore st { ctx with commonProcs := putIdent ctx.commonProcs { proc with t3470Active := true } } := by
        simp [identification_request, hget]
      refine ⟨by simp [identification_request, hget], ?_⟩
      refine ⟨{ ctx with commonProcs := putIdent ctx.commonProcs { proc with t3470Active := true } },
        ?_, findIdent_putIdent hp _⟩
      rw [hst]
      exact get_ctxStore_self hget hcu

/-- Witness for C10: absent context gives an error with nothing emitted, and a
successful send against a present context reports RETURNok. -/
theorem c10_request_send_gate_witness :
    identification_request wStEmpty wProcA true = ⟨wStEmpty, [], Rc.error⟩ ∧
    (identification_request wStA wProcA true).rc = Rc.ok := by
  constructor
  · exact (c10_request_send_gate wStEmpty wProcA true).1 (by decide)
  · exact (((c10_request_send_gate wStA wProcA true).2 wCtxA (by decide)).2.2 rfl (by decide)).1

/-- C9: a non-delivery-during-handover event with a live context and a live
Identification procedure re-issues the same identity request immediately, and
the retransmission counter of the stored procedure is unchanged: the resend
does not consume a retry slot of the timeout accounting. -/
theorem c9_non_delivered_ho_resend (st : GState) (ueId : Nat) (ctx : EmmContext)
    (proc : IdentProc) (sendOk : Bool)
    (hget : emm_data_context_get st ueId = some ctx)
    (hp : findIdent ctx.commonProcs = some proc)
    (hpid : proc.ueId = ueId) :
    (identification_non_delivered_ho st ueId sendOk).prims =
      [Primitive.securityReq ueId proc.identityType] ∧
    ∀ c' q, emm_data_context_get (identification_non_delivered_ho st ueId sendOk).st ueId = some c' →
      findIdent c'.commonProcs = some q →
      q.retransmissionCount = proc.retransmissionCount := by
  have hreq : identification_non_delivered_ho st ueId sendOk = identification_request st proc sendOk := by
    simp [identification_non_delivered_ho, hget, hp]
  have hgp : emm_data_context_get st proc.ueId = some ctx := by rw [hpid]; exact hget
  cases sendOk with
  | false =>
      have h1 : identification_request st proc false =
          ⟨st, [Primitive.securityReq proc.ueId proc.identityType], Rc.error⟩ := by
        simp [identification_request, hgp]
      rw [hreq, h1]
      constructor
      · rw [hpid]
      · intro c' q hc hq
        simp only at hc
        rw [hget] at hc
        injection hc with hc
        rw [← hc] at hq
        rw [hp] at hq
        injection hq with hq
        rw [← hq]
  | true =>
      have h1 : identification_request st proc true =
          ⟨ctxStore st { ctx with commonProcs := putIdent ctx.commonProcs { proc with t3470Active := true } },
           [Primitive.securityReq proc.ueId proc.identityType], Rc.ok⟩ := by
        simp [identification_request, hgp]
      rw [hreq, h1]
      constructor
      · rw [hpid]
      · intro c' q hc hq
        have hcu : ctx.ueId = ueId := ctxFind_ueId hget
        have hcx : emm_data_context_get
            (ctxStore st { ctx with commonProcs := putIdent ctx.commonProcs { proc with t3470Active := true } }) ueId =
            some { ctx with commonProcs := putIdent ctx.commonProcs { proc with t3470Active := true } } :=
          get_ctxStore_self hget hcu
        simp only at hc
        rw [hcx] at hc
        injection hc with hc
        rw [← hc] at hq
        rw [findIdent_putIdent hp _] at hq
        injection hq with hq
        rw [← hq]

/-- Witness for C9 on the fixture store: the request is re-issued. -/
theorem c9_non_delivered_ho_resend_witness :
    (identification_non_delivered_ho wStA 1 true).prims =
      [Primitive.securityReq 1 IdentityType.imsi] :=
  (c9_non_delivered_ho_resend wStA 1 wCtxA wProcA true (by decide) (by decide) rfl).1

/-- Computation lemma for the timeout handler's retry branch (incremented
counter still below the maximum, send succeeds). -/
theorem t3470_handler_retry_eq (st : GState) (ueId : Nat) (ctx : EmmContext)
    (proc : IdentProc) (ar : Bool)
    (hget : emm_data_context_get st ueId = some ctx)
    (hp : findIdent ctx.commonProcs = some proc)
    (hpid : proc.ueId = ueId)
    (hlt : proc.retransmissionCount + 1 < IDENTIFICATION_COUNTER_MAX) :
    identification_t3470_handler st ueId true ar =
      (ctxStore st
        { ctx with
          commonProcs := putIdent ctx.commonProcs
              { proc with
                retransmissionCount := proc.retransmissionCount + 1, t3470Active := true } },
       [Primitive.securityReq ueId proc.identityType]) := by
  subst hpid
  have hcu : ctx.ueId = proc.ueId := ctxFind_ueId hget
  have hget1 : emm_data_context_get
      (ctxStore st
        { ctx with
          commonProcs := putIdent ctx.commonProcs
              { proc with
                t3470Active := false, retransmissionCount := proc.retransmissionCount + 1 } })
      proc.ueId =
      some
        { ctx with
          commonProcs := putIdent ctx.commonProcs
              { proc with
                t3470Active := false, retransmissionCount := proc.retransmissionCount + 1 } } :=
    get_ctxStore_self hget hcu
  simp only [identification_t3470_handler, hget, hp, if_pos hlt, identification_request]
  rw [hget1]
  simp only [putIdent_putIdent]
  rw [ctxStore_ctxStore_procs]
  simp

/-- Computation lemma for the timeout handler's abort branch when the
registration layer does not release the context during the abort dispatch. -/
theorem t3470_handler_abort_keep_eq (st : GState) (ueId : Nat) (ctx : EmmContext)
    (proc : IdentProc) (sendOk : Bool)
    (hget : emm_data_context_get st ueId = some ctx)
    (hp : findIdent ctx.commonProcs = some proc)
    (hpid : proc.ueId = ueId)
    (hge : IDENTIFICATION_COUNTER_MAX ≤ proc.retransmissionCount + 1) :
    identification_t3470_handler st ueId sendOk false =
      (ctxStore st { ctx with commonProcs := [] },
       [Primitive.commonProcAbort ueId false true, Primitive.implicitDetach ueId 0 0]) := by
  subst hpid
  have hcu : ctx.ueId = proc.ueId := ctxFind_ueId hget
  have hget1 : emm_data_context_get
      (ctxStore st
        { ctx with
          commonProcs := putIdent ctx.commonProcs
              { proc with
                t3470Active := false, retransmissionCount := proc.retransmissionCount + 1 } })
      proc.ueId =
      some
        { ctx with
          commonProcs := putIdent ctx.commonProcs
              { proc with
                t3470Active := false, retransmissionCount := proc.retransmissionCount + 1 } } :=
    get_ctxStore_self hget hcu
  have hget2 : emm_data_context_get
      (ctxStore
        (ctxStore st
          { ctx with
            commonProcs := putIdent ctx.commonProcs
                { proc with
                  t3470Active := false, retransmissionCount := proc.retransmissionCount + 1 } })
        { ctx with commonProcs := [] })
      proc.ueId = some { ctx with commonProcs := [] } :=
    get_ctxStore_self hget1 hcu
  simp only [identification_t3470_handler, hget, hp, if_neg (not_lt.mpr hge),
    Bool.false_eq_true, if_false, nas_delete_all_emm_procedures]
  rw [hget1]
  simp only []
  rw [hget2]
  rw [ctxStore_ctxStore_procs]

/-- Computation lemma for the timeout handler's abort branch when the abort
dispatch releases the context before the handler resumes. -/
theorem t3470_handler_abort_removed_eq (st : GState) (ueId : Nat) (ctx : EmmContext)
    (proc : IdentProc) (sendOk : Bool)
    (hget : emm_data_context_get st ueId = some ctx)
    (hp : findIdent ctx.commonProcs = some proc)
    (hpid : proc.ueId = ueId)
    (hge : IDENTIFICATION_COUNTER_MAX ≤ proc.retransmissionCount + 1) :
    identification_t3470_handler st ueId sendOk true =
      (ctxRemove
        (ctxStore st
          { ctx with
            commonProcs := putIdent ctx.commonProcs
                { proc with
                  t3470Active := false, retransmissionCount := proc.retransmissionCount + 1 } })
        ueId,
       [Primitive.commonProcAbort ueId false true, Primitive.esmDetachInd ueId]) := by
  subst hpid
  have hnone : emm_data_context_get
      (ctxRemove
        (ctxStore st
          { ctx with
            commonProcs := putIdent ctx.commonProcs
                { proc with
                  t3470Active := false, retransmissionCount := proc.retransmissionCount + 1 } })
        proc.ueId)
      proc.ueId = none :=
    get_ctxRemove_self _ proc.ueId
  simp only [identification_t3470_handler, hget, hp, if_neg (not_lt.mpr hge), if_true]
  rw [hnone]
  simp only []
  rw [hnone]

/-- C1: for a subscriber with a live Identification procedure, a T3470 timeout
increments the retransmission counter by one; if the incremented counter is
still below IDENTIFICATION_COUNTER_MAX the handler re-sends the identity
request and re-arms the timer, keeping the procedure alive (so a start,
which leaves the counter at 0, followed by max-1 timeouts resends each time),
and the timeout that reaches the maximum instead aborts the procedure and
frees it. -/
theorem c1_timeout_retry_then_abort (st : GState) (ueId : Nat) (ctx : EmmContext)
    (proc : IdentProc) (ar : Bool)
    (hget : emm_data_context_get st ueId = some ctx)
    (hp : findIdent ctx.commonProcs = some proc)
    (hpid : proc.ueId = ueId) :
    (proc.retransmissionCount + 1 < IDENTIFICATION_COUNTER_MAX →
       (identification_t3470_handler st ueId true ar).2 =
         [Primitive.securityReq ueId proc.identityType] ∧
       ∃ c', emm_data_context_get (identification_t3470_handler st ueId true ar).1 ueId = some c' ∧
         findIdent c'.commonProcs = some
           { proc with
             retransmissionCount := proc.retransmissionCount + 1, t3470Active := true }) ∧
    (IDENTIFICATION_COUNTER_MAX ≤ proc.retransmissionCount + 1 →
       Primitive.commonProcAbort ueId false true ∈ (identification_t3470_handler st ueId true ar).2 ∧
       ∀ c', emm_data_context_get (identification_t3470_handler st ueId true ar).1 ueId = some c' →
         findIdent c'.commonProcs = none) := by
  have hcu : ctx.ueId = ueId := ctxFind_ueId hget
  constructor
  · intro hlt
    rw [t3470_handler_retry_eq st ueId ctx proc ar hget hp hpid hlt]
    exact ⟨rfl, _, get_ctxStore_self hget hcu, findIdent_putIdent hp _⟩
  · intro hge
    cases ar with
    | false =>
        rw [t3470_handler_abort_keep_eq st ueId ctx proc true hget hp hpid hge]
        constructor
        · simp
        · intro c' hc'
          have hgot : emm_data_context_get
              (ctxStore st { ctx with commonProcs := ([] : List CommonProcEntry) }) ueId =
              some { ctx with commonProcs := ([] : List CommonProcEntry) } :=
            get_ctxStore_self hget hcu
          rw [hgot] at hc'
          injection hc' with hc'
          rw [← hc']
          rfl
    | true =>
        rw [t3470_handler_abort_removed_eq st ueId ctx proc true hget hp hpid hge]
        constructor
        · simp
        · intro c' hc'
          rw [get_ctxRemove_self _ ueId] at hc'
          exact absurd hc' (by simp)

/-- Witness for C1 on the fixture store: the first timeout resends the
identity request. -/
theorem c1_timeout_retry_then_abort_witness :
    (identification_t3470_handler wStA 1 true false).2 =
      [Primitive.securityReq 1 IdentityType.imsi] :=
  ((c1_timeout_retry_then_abort wStA 1 wCtxA wProcA false (by decide) (by decide) rfl).1
    (by decide)).1

/-- C3: when a timeout brings the retransmission counter to the configured
maximum, the handler emits the abort conclusion primitive to the registration
layer, releases all common procedures of the subscriber (not just the
Identification procedure), and then emits exactly one of: the implicit detach
(subscriber context still in the store) or the external esm detach indication
(context already gone) — never both and never neither. -/
theorem c3_abort_exactly_one_detach (st : GState) (ueId : Nat) (ctx : EmmContext)
    (proc : IdentProc) (sendOk ar : Bool)
    (hget : emm_data_context_get st ueId = some ctx)
    (hp : findIdent ctx.commonProcs = some proc)
    (hpid : proc.ueId = ueId)
    (hge : IDENTIFICATION_COUNTER_MAX ≤ proc.retransmissionCount + 1) :
    Primitive.commonProcAbort ueId false true ∈ (identification_t3470_handler st ueId sendOk ar).2 ∧
    (∀ c', emm_data_context_get (identification_t3470_handler st ueId sendOk ar).1 ueId = some c' →
       c'.commonProcs = []) ∧
    ((Primitive.implicitDetach ueId 0 0 ∈ (identification_t3470_handler st ueId sendOk ar).2 ∧
      Primitive.esmDetachInd ueId ∉ (identification_t3470_handler st ueId sendOk ar).2 ∧
      (emm_data_context_get (identification_t3470_handler st ueId sendOk ar).1 ueId).isSome = true) ∨
     (Primitive.esmDetachInd ueId ∈ (identification_t3470_handler st ueId sendOk ar).2 ∧
      Primitive.implicitDetach ueId 0 0 ∉ (identification_t3470_handler st ueId sendOk ar).2 ∧
      emm_data_context_get (identification_t3470_handler st ueId sendOk ar).1 ueId = none)) := by
  have hcu : ctx.ueId = ueId := ctxFind_ueId hget
  cases ar with
  | false =>
      rw [t3470_handler_abort_keep_eq st ueId ctx proc sendOk hget hp hpid hge]
      have hgot : emm_data_context_get
          (ctxStore st { ctx with commonProcs := ([] : List CommonProcEntry) }) ueId =
          some { ctx with commonProcs := ([] : List CommonProcEntry) } :=
        get_ctxStore_self hget hcu
      refine ⟨by simp, ?_, Or.inl ⟨by simp, by simp, by rw [hgot]; rfl⟩⟩
      intro c' hc'
      rw [hgot] at hc'
      injection hc' with hc'
      rw [← hc']
  | true =>
      rw [t3470_handler_abort_removed_eq st ueId ctx proc sendOk hget hp hpid hge]
      have hnone := get_ctxRemove_self
        (ctxStore st
          { ctx with
            commonProcs := putIdent ctx.commonProcs
                { proc with
                  t3470Active := false, retransmissionCount := proc.retransmissionCount + 1 } })
        ueId
      refine ⟨by simp, ?_, Or.inr ⟨by simp, by simp, hnone⟩⟩
      intro c' hc'
      rw [hnone] at hc'
      exact absurd hc' (by simp)

/-- Witness for C3 on the fixture store with the counter one short of the
maximum: the fifth timeout emits the abort conclusion. -/
theorem c3_abort_exactly_one_detach_witness :
    Primitive.commonProcAbort 1 false true ∈ (identification_t3470_handler wStMax 1 true false).2 :=
  (c3_abort_exactly_one_detach wStMax 1 wCtxMax wProcMax true false (by decide) (by decide) rfl
    (by decide)).1

theorem get_upsert_eq (st : GState) (m u v : Nat) :
    emm_data_context_get (emm_data_context_upsert_imsi st m u) v =
      emm_data_context_get st v := rfl

/-- After the second duplicate check of the imsi path, the completing
context's Identification procedure is still stored with its timer status
untouched by this phase. -/
theorem complete_imsi_phase2_keeps_proc (st1 : GState) (ctx1 : EmmContext) (proc1 : IdentProc)
    (ueId m : Nat)
    (hget1 : emm_data_context_get st1 ueId = some ctx1)
    (hfi1 : findIdent ctx1.commonProcs = some proc1)
    (hcu1 : ctx1.ueId = ueId) :
    ∃ c' q, emm_data_context_get (complete_imsi_phase2 st1 ctx1 proc1 ueId m).st ueId = some c' ∧
      findIdent c'.commonProcs = some q ∧ q.t3470Active = proc1.t3470Active := by
  rcases hmme : mme_ue_context_exists_imsi st1 m with _ | dupId
  · simp only [complete_imsi_phase2, hmme, complete_commit_imsi]
    refine ⟨{ ctx1 with imsi := some m }, proc1, ?_, hfi1, rfl⟩
    rw [get_upsert_eq]
    exact get_ctxStore_self hget1 hcu1
  · by_cases hne : dupId ≠ ctx1.ueId
    · simp only [complete_imsi_phase2, hmme, if_pos hne, complete_conflict_mmeapp]
      refine ⟨{ ctx1 with commonProcs := putIdent ctx1.commonProcs (arm_parent_retry proc1 dupId) },
        arm_parent_retry proc1 dupId, ?_, findIdent_putIdent hfi1 _, rfl⟩
      exact get_ctxStore_self hget1 hcu1
    · simp only [complete_imsi_phase2, hmme, if_neg hne, complete_commit_imsi]
      refine ⟨{ ctx1 with imsi := some m }, proc1, ?_, hfi1, rfl⟩
      rw [get_upsert_eq]
      exact get_ctxStore_self hget1 hcu1

/-- The whole imsi path of complete keeps the completing context's
Identification procedure stored with its timer status untouched. -/
theorem complete_with_imsi_keeps_proc (st1 : GState) (ctx1 : EmmContext) (proc1 : IdentProc)
    (ueId m : Nat)
    (hget1 : emm_data_context_get st1 ueId = some ctx1)
    (hfi1 : findIdent ctx1.commonProcs = some proc1)
    (hcu1 : ctx1.ueId = ueId) :
    ∃ c' q, emm_data_context_get (complete_with_imsi st1 ctx1 proc1 ueId m).st ueId = some c' ∧
      findIdent c'.commonProcs = some q ∧ q.t3470Active = proc1.t3470Active := by
  rcases hdup : emm_data_context_get_by_imsi st1 m with _ | dup
  · simp only [complete_with_imsi, hdup]
    exact complete_imsi_phase2_keeps_proc st1 ctx1 proc1 ueId m hget1 hfi1 hcu1
  · by_cases hne : dup.ueId ≠ ctx1.ueId
    · simp only [complete_with_imsi, hdup, if_pos hne, complete_conflict_emm]
      have hne' : ueId ≠ dup.ueId := fun h => hne (h.symm.trans hcu1.symm)
      have hstep : emm_data_context_get
          (ctxStore (ctxStore st1
              { ctx1 with commonProcs := putIdent ctx1.commonProcs (arm_parent_retry proc1 dup.ueId) })
            { dup with emmCause := some EMM_CAUSE_ILLEGAL_UE }) ueId =
          emm_data_context_get (ctxStore st1
              { ctx1 with commonProcs := putIdent ctx1.commonProcs (arm_parent_retry proc1 dup.ueId) }) ueId :=
        get_ctxStore_ne _ hne'
      refine ⟨{ ctx1 with commonProcs := putIdent ctx1.commonProcs (arm_parent_retry proc1 dup.ueId) },
        arm_parent_retry proc1 dup.ueId, ?_, findIdent_putIdent hfi1 _, rfl⟩
      rw [hstep]
      exact get_ctxStore_self hget1 hcu1
    · simp only [complete_with_imsi, hdup, if_neg hne]
      exact complete_imsi_phase2_keeps_proc st1 ctx1 proc1 ueId m hget1 hfi1 hcu1

/-- C4: whenever complete finds both the subscriber context and the
Identification procedure, T3470 is stopped before any identity update,
conflict handling or notification: on every branch the stored procedure ends
with its timer inactive, and consequently a subsequent T3470 fire for that
subscriber produces no state change and no primitive. -/
theorem c4_complete_disarms_timer (st : GState) (ueId : Nat)
    (imsiArg imeiArg imeisvArg tmsiArg : Option Nat) (ctx : EmmContext) (proc : IdentProc)
    (hget : emm_data_context_get st ueId = some ctx)
    (hp : findIdent ctx.commonProcs = some proc) :
    (∀ c' q,
       emm_data_context_get
         (emm_proc_identification_complete st ueId imsiArg imeiArg imeisvArg tmsiArg).st ueId = some c' →
       findIdent c'.commonProcs = some q → q.t3470Active = false) ∧
    (∀ so ar,
       t3470_fire (emm_proc_identification_complete st ueId imsiArg imeiArg imeisvArg tmsiArg).st
           ueId so ar =
         ((emm_proc_identification_complete st ueId imsiArg imeiArg imeisvArg tmsiArg).st, [])) := by
  have hcu : ctx.ueId = ueId := ctxFind_ueId hget
  have hget1 : emm_data_context_get
      (ctxStore st { ctx with commonProcs := putIdent ctx.commonProcs { proc with t3470Active := false } })
      ueId =
      some { ctx with commonProcs := putIdent ctx.commonProcs { proc with t3470Active := false } } :=
    get_ctxStore_self hget hcu
  have hfi1 : findIdent (putIdent ctx.commonProcs { proc with t3470Active := false }) =
      some { proc with t3470Active := false } := findIdent_putIdent hp _
  have master : ∃ c' q,
      emm_data_context_get
        (emm_proc_identification_complete st ueId imsiArg imeiArg imeisvArg tmsiArg).st ueId = some c' ∧
      findIdent c'.commonProcs = some q ∧ q.t3470Active = false := by
    simp only [emm_proc_identification_complete, hget, hp]
    cases imsiArg with
    | some m =>
        exact complete_with_imsi_keeps_proc _ _ _ ueId m hget1 hfi1 hcu
    | none =>
        cases imeiArg with
        | some ei =>
            refine ⟨{ ctx with
                commonProcs := putIdent ctx.commonProcs { proc with t3470Active := false },
                imei := some ei },
              { proc with t3470Active := false }, ?_, hfi1, rfl⟩
            exact get_ctxStore_self hget1 hcu
        | none =>
            cases imeisvArg with
            | some sv =>
                refine ⟨{ ctx with
                    commonProcs := putIdent ctx.commonProcs { proc with t3470Active := false },
                    imeisv := some sv },
                  { proc with t3470Active := false }, ?_, hfi1, rfl⟩
                exact get_ctxStore_self hget1 hcu
            | none =>
                cases tmsiArg with
                | some t => exact ⟨_, _, hget1, hfi1, rfl⟩
                | none => exact ⟨_, _, hget1, hfi1, rfl⟩
  obtain ⟨c0, q0, hc0, hq0, ht0⟩ := master
  refine ⟨?_, ?_⟩
  · intro c' q hc hq
    rw [hc0] at hc
    injection hc with hc
    rw [← hc] at hq
    rw [hq0] at hq
    injection hq with hq
    rw [← hq]
    exact ht0
  · intro so ar
    simp [t3470_fire, hc0, hq0, ht0]

/-- Witness for C4: after a completed response carrying an imsi, a late timer
fire is absorbed without producing anything. -/
theorem c4_complete_disarms_timer_witness :
    t3470_fire (emm_proc_identification_complete wStA 1 (some 7) none none none).st 1 true false =
      ((emm_proc_identification_complete wStA 1 (some 7) none none none).st, []) :=
  (c4_complete_disarms_timer wStA 1 (some 7) none none none wCtxA wProcA
    (by decide) (by decide)).2 true false

/-- A second subscriber context, already bound to imsi 7 under ue id 2. -/
def wCtxB : EmmContext :=
  { ueId := 2
    fsmState := .registered
    commonProcs := []
    imsi := some 7
    imei := none
    imeisv := none
    emmCause := none }

/-- A store holding wCtxA (completing identification) and wCtxB (stale
holder of imsi 7, indexed in the imsi index). -/
def wStDup : GState :=
  { emmCtxs := [wCtxA, wCtxB], imsiToUe := [(7, 2)], mmeAppImsiToUe := [] }

/-- C2: a complete that learns an imsi already held by another live context
under a different ue id restarts the retry timer on the parent of the
Identification procedure and records the stale context's ue id there, marks
the stale context with cause illegal UE, emits the implicit detach for it
(with that cause, no detach type) followed by the conclusion with
notify=false, free=true, and neither commits the imsi onto the completing
context nor indexes it in that step. -/
theorem c2_conflict_resolution (st : GState) (ueId m duid : Nat) (ctx dup : EmmContext)
    (proc : IdentProc) (sp : SpecificProc)
    (hget : emm_data_context_get st ueId = some ctx)
    (hp : findIdent ctx.commonProcs = some proc)
    (hpar : proc.parent = some sp)
    (hidx : lookupNat st.imsiToUe m = some duid)
    (hne : duid ≠ ueId)
    (hdup : emm_data_context_get st duid = some dup) :
    (emm_proc_identification_complete st ueId (some m) none none none).rc = Rc.ok ∧
    (emm_proc_identification_complete st ueId (some m) none none none).prims =
      [Primitive.implicitDetach duid EMM_CAUSE_ILLEGAL_UE 0,
       Primitive.commonProcCnf ueId false true] ∧
    (∃ c', emm_data_context_get
         (emm_proc_identification_complete st ueId (some m) none none none).st ueId = some c' ∧
       c'.imsi = ctx.imsi ∧
       findIdent c'.commonProcs = some
         { proc with
           t3470Active := false,
           parent := some { sp with retryTimerActive := true, oldUeId := some duid } }) ∧
    (∃ d', emm_data_context_get
         (emm_proc_identification_complete st ueId (some m) none none none).st duid = some d' ∧
       d' = { dup with emmCause := some EMM_CAUSE_ILLEGAL_UE }) ∧
    (emm_proc_identification_complete st ueId (some m) none none none).st.imsiToUe =
      st.imsiToUe := by
  have hcu : ctx.ueId = ueId := ctxFind_ueId hget
  have hdu : dup.ueId = duid := ctxFind_ueId hdup
  have hne2 : ueId ≠ dup.ueId := by rw [hdu]; exact fun h => hne h.symm
  have hcond : dup.ueId ≠ ctx.ueId := by rw [hdu, hcu]; exact hne
  have hget1 : emm_data_context_get
      (ctxStore st
        { ctx with commonProcs := putIdent ctx.commonProcs { proc with t3470Active := false } })
      ueId =
      some { ctx with commonProcs := putIdent ctx.commonProcs { proc with t3470Active := false } } :=
    get_ctxStore_self hget hcu
  have hfi1 : findIdent (putIdent ctx.commonProcs { proc with t3470Active := false }) =
      some { proc with t3470Active := false } := findIdent_putIdent hp _
  have hdup1 : emm_data_context_get
      (ctxStore st
        { ctx with commonProcs := putIdent ctx.commonProcs { proc with t3470Active := false } })
      duid = some dup := by
    rw [get_ctxStore_ne
        { ctx with commonProcs := putIdent ctx.commonProcs { proc with t3470Active := false } }
        (fun h => hne (h.trans hcu))]
    exact hdup
  have hby : emm_data_context_get_by_imsi
      (ctxStore st
        { ctx with commonProcs := putIdent ctx.commonProcs { proc with t3470Active := false } })
      m = some dup := by
    simp only [emm_data_context_get_by_imsi]
    rw [show (ctxStore st
        { ctx with commonProcs := putIdent ctx.commonProcs { proc with t3470Active := false } }).imsiToUe =
        st.imsiToUe from rfl, hidx]
    exact hdup1
  have hroute : emm_proc_identification_complete st ueId (some m) none none none =
      complete_conflict_emm
        (ctxStore st
          { ctx with commonProcs := putIdent ctx.commonProcs { proc with t3470Active := false } })
        { ctx with commonProcs := putIdent ctx.commonProcs { proc with t3470Active := false } }
        { proc with t3470Active := false } ueId dup := by
    simp only [emm_proc_identification_complete, hget, hp, complete_with_imsi, hby, if_pos hcond]
  rw [hroute]
  refine ⟨rfl, ?_, ?_, ?_, rfl⟩
  · simp [complete_conflict_emm, hdu]
  · refine ⟨{ ctx with
        commonProcs := putIdent (putIdent ctx.commonProcs { proc with t3470Active := false })
            (arm_parent_retry { proc with t3470Active := false } dup.ueId) }, ?_, rfl, ?_⟩
    · show emm_data_context_get _ ueId = _
      simp only [complete_conflict_emm]
      rw [get_ctxStore_ne { dup with emmCause := some EMM_CAUSE_ILLEGAL_UE } hne2]
      exact get_ctxStore_self hget1 hcu
    · show findIdent (putIdent (putIdent ctx.commonProcs { proc with t3470Active := false })
          (arm_parent_retry { proc with t3470Active := false } dup.ueId)) = _
      rw [findIdent_putIdent hfi1]
      simp [arm_parent_retry, hpar, hdu]
  · refine ⟨{ dup with emmCause := some EMM_CAUSE_ILLEGAL_UE }, ?_, rfl⟩
    simp only [complete_conflict_emm]
    have hd2 : emm_data_context_get
        (ctxStore
          (ctxStore st
            { ctx with commonProcs := putIdent ctx.commonProcs { proc with t3470Active := false } })
          { ctx with
            commonProcs := putIdent (putIdent ctx.commonProcs { proc with t3470Active := false })
                (arm_parent_retry { proc with t3470Active := false } dup.ueId) })
        duid = some dup := by
      rw [get_ctxStore_ne
          { ctx with
            commonProcs := putIdent (putIdent ctx.commonProcs { proc with t3470Active := false })
                (arm_parent_retry { proc with t3470Active := false } dup.ueId) }
          (fun h => hne (h.trans hcu))]
      exact hdup1
    exact get_ctxStore_self hd2 hdu

/-- Witness for C2 on the two-context fixture: the stale context 2 receives
the implicit detach with cause illegal UE and the procedure of context 1 is
concluded with notify=false, free=true. -/
theorem c2_conflict_resolution_witness :
    (emm_proc_identification_complete wStDup 1 (some 7) none none none).prims =
      [Primitive.implicitDetach 2 EMM_CAUSE_ILLEGAL_UE 0,
       Primitive.commonProcCnf 1 false true] :=
  (c2_conflict_resolution wStDup 1 7 2 wCtxA wCtxB wProcA
    { retryTimerActive := false, oldUeId := none }
    (by decide) (by decide) (by decide) (by decide) (by decide) (by decide)).2.1

/-- C5: a complete that learns an imsi held by no other EMM context and no
other MME-APP session binding under a different ue id commits the imsi onto
the completing context, indexes it so that a lookup by that imsi returns the
same context, and concludes with notify=true, free=true. -/
theorem c5_no_conflict_commit (st : GState) (ueId m : Nat) (ctx : EmmContext) (proc : IdentProc)
    (hget : emm_data_context_get st ueId = some ctx)
    (hp : findIdent ctx.commonProcs = some proc)
    (hno1 : ∀ d, emm_data_context_get_by_imsi st m = some d → d.ueId = ueId)
    (hno2 : ∀ x, mme_ue_context_exists_imsi st m = some x → x = ueId) :
    (emm_proc_identification_complete st ueId (some m) none none none).rc = Rc.ok ∧
    (emm_proc_identification_complete st ueId (some m) none none none).prims =
      [Primitive.commonProcCnf ueId true true] ∧
    ∃ c', emm_data_context_get
        (emm_proc_identification_complete st ueId (some m) none none none).st ueId = some c' ∧
      c'.imsi = some m ∧
      emm_data_context_get_by_imsi
        (emm_proc_identification_complete st ueId (some m) none none none).st m = some c' := by
  have hcu : ctx.ueId = ueId := ctxFind_ueId hget
  have hget1 : emm_data_context_get
      (ctxStore st
        { ctx with commonProcs := putIdent ctx.commonProcs { proc with t3470Active := false } })
      ueId =
      some { ctx with commonProcs := putIdent ctx.commonProcs { proc with t3470Active := false } } :=
    get_ctxStore_self hget hcu
  have hphase : complete_imsi_phase2
      (ctxStore st
        { ctx with commonProcs := putIdent ctx.commonProcs { proc with t3470Active := false } })
      { ctx with commonProcs := putIdent ctx.commonProcs { proc with t3470Active := false } }
      { proc with t3470Active := false } ueId m =
      complete_commit_imsi
        (ctxStore st
          { ctx with commonProcs := putIdent ctx.commonProcs { proc with t3470Active := false } })
        { ctx with commonProcs := putIdent ctx.commonProcs { proc with t3470Active := false } }
        ueId m := by
    rcases hm2 : mme_ue_context_exists_imsi
        (ctxStore st
          { ctx with commonProcs := putIdent ctx.commonProcs { proc with t3470Active := false } })
        m with _ | x
    · simp only [complete_imsi_phase2, hm2]
    · have hx : x = ueId := hno2 x hm2
      have hnot : ¬ (x ≠ ({ ctx with
          commonProcs := putIdent ctx.commonProcs { proc with t3470Active := false } } : EmmContext).ueId) :=
        fun hq => hq (hx.trans hcu.symm)
      simp only [complete_imsi_phase2, hm2, if_neg hnot]
  have hroute : emm_proc_identification_complete st ueId (some m) none none none =
      complete_commit_imsi
        (ctxStore st
          { ctx with commonProcs := putIdent ctx.commonProcs { proc with t3470Active := false } })
        { ctx with commonProcs := putIdent ctx.commonProcs { proc with t3470Active := false } }
        ueId m := by
    rcases hlk : lookupNat st.imsiToUe m with _ | v
    · have hby : emm_data_context_get_by_imsi
          (ctxStore st
            { ctx with commonProcs := putIdent ctx.commonProcs { proc with t3470Active := false } })
          m = none := by
        simp only [emm_data_context_get_by_imsi]
        rw [show (ctxStore st
            { ctx with
              commonProcs := putIdent ctx.commonProcs { proc with t3470Active := false } }).imsiToUe =
            st.imsiToUe from rfl, hlk]
      simp only [emm_proc_identification_complete, hget, hp, complete_with_imsi, hby]
      exact hphase
    · rcases hv : emm_data_context_get st v with _ | d
      · have hvne : v ≠ ueId := by
          intro h
          rw [h, hget] at hv
          cases hv
        have hby : emm_data_context_get_by_imsi
            (ctxStore st
              { ctx with commonProcs := putIdent ctx.commonProcs { proc with t3470Active := false } })
            m = none := by
          simp only [emm_data_context_get_by_imsi]
          rw [show (ctxStore st
              { ctx with
                commonProcs := putIdent ctx.commonProcs { proc with t3470Active := false } }).imsiToUe =
              st.imsiToUe from rfl, hlk]
          show emm_data_context_get _ v = none
          rw [get_ctxStore_ne
              { ctx with commonProcs := putIdent ctx.commonProcs { proc with t3470Active := false } }
              (fun h => hvne (h.trans hcu))]
          exact hv
        simp only [emm_proc_identification_complete, hget, hp, complete_with_imsi, hby]
        exact hphase
      · have hd : emm_data_context_get_by_imsi st m = some d := by
          simp only [emm_data_context_get_by_imsi, hlk]
          exact hv
        have hdueq : d.ueId = ueId := hno1 d hd
        have hv2 : v = ueId := (ctxFind_ueId hv).symm.trans hdueq
        have hby : emm_data_context_get_by_imsi
            (ctxStore st
              { ctx with commonProcs := putIdent ctx.commonProcs { proc with t3470Active := false } })
            m = some { ctx with
              commonProcs := putIdent ctx.commonProcs { proc with t3470Active := false } } := by
          simp only [emm_data_context_get_by_imsi]
          rw [show (ctxStore st
              { ctx with
                commonProcs := putIdent ctx.commonProcs { proc with t3470Active := false } }).imsiToUe =
              st.imsiToUe from rfl, hlk, hv2]
          exact hget1
        have hnot : ¬ (({ ctx with
            commonProcs := putIdent ctx.commonProcs { proc with t3470Active := false } } : EmmContext).ueId ≠
            ({ ctx with
              commonProcs := putIdent ctx.commonProcs { proc with t3470Active := false } } : EmmContext).ueId) :=
          fun h => h rfl
        simp only [emm_proc_identification_complete, hget, hp, complete_with_imsi, hby, if_neg hnot]
        exact hphase
  rw [hroute]
  refine ⟨rfl, rfl,
    { ctx with
      commonProcs := putIdent ctx.commonProcs { proc with t3470Active := false },
      imsi := some m }, ?_, rfl, ?_⟩
  · show emm_data_context_get _ ueId = _
    simp only [complete_commit_imsi]
    rw [get_upsert_eq]
    exact get_ctxStore_self hget1 hcu
  · show emm_data_context_get_by_imsi _ m = _
    simp only [complete_commit_imsi, emm_data_context_upsert_imsi, emm_data_context_get_by_imsi,
      lookupNat, if_pos rfl]
    exact get_ctxStore_self hget1 hcu

/-- Witness for C5: with no holder of imsi 7 anywhere, completion commits and
concludes with notify=true, free=true. -/
theorem c5_no_conflict_commit_witness :
    (emm_proc_identification_complete wStA 1 (some 7) none none none).prims =
      [Primitive.commonProcCnf 1 true true] :=
  (c5_no_conflict_commit wStA 1 7 wCtxA wProcA (by decide) (by decide)
    (fun d h => Option.noConfusion h) (fun x h => Option.noConfusion h)).2.1

/-- C8: calling start twice in succession for the same subscriber reuses the
stored Identification procedure instead of allocating a second one — the
second call leaves the state and the emitted primitives exactly as after the
first call, after one start there is exactly one more Identification entry
than before only when none existed (at most one live instance), and the retry
counter after the second call is the 0 the first call left. -/
theorem c8_start_idempotent (st : GState) (ueId : Nat) (emmProc : Option SpecificProc)
    (idType : IdentityType) (ctx : EmmContext)
    (hget : emm_data_context_get st ueId = some ctx)
    (hcond : ctx.fsmState = .deregistered ∨ ctx.fsmState = .registered) :
    (emm_proc_identification (emm_proc_identification st ueId emmProc idType true).st
        ueId emmProc idType true).st =
      (emm_proc_identification st ueId emmProc idType true).st ∧
    (emm_proc_identification (emm_proc_identification st ueId emmProc idType true).st
        ueId emmProc idType true).prims =
      (emm_proc_identification st ueId emmProc idType true).prims ∧
    ∃ c1, emm_data_context_get (emm_proc_identification st ueId emmProc idType true).st ueId =
        some c1 ∧
      countIdent c1.commonProcs =
        (match findIdent ctx.commonProcs with
         | none => countIdent ctx.commonProcs + 1
         | some _ => countIdent ctx.commonProcs) ∧
      ∀ q, findIdent c1.commonProcs = some q → q.retransmissionCount = 0 := by
  have hcu : ctx.ueId = ueId := ctxFind_ueId hget
  rw [emm_proc_identification_ok_eq st ueId emmProc idType ctx hget hcond]
  rcases hfi : findIdent ctx.commonProcs with _ | p
  · have hget2 : emm_data_context_get
        (ctxStore st
          { ctx with
            commonProcs := CommonProcEntry.identEntry (startedProc ueId emmProc idType ctx.fsmState) ::
                ctx.commonProcs })
        ueId =
        some
          { ctx with
            commonProcs := CommonProcEntry.identEntry (startedProc ueId emmProc idType ctx.fsmState) ::
                ctx.commonProcs } :=
      get_ctxStore_self hget hcu
    have h2 := emm_proc_identification_ok_eq
      (ctxStore st
        { ctx with
          commonProcs := CommonProcEntry.identEntry (startedProc ueId emmProc idType ctx.fsmState) ::
              ctx.commonProcs })
      ueId emmProc idType
      { ctx with
        commonProcs := CommonProcEntry.identEntry (startedProc ueId emmProc idType ctx.fsmState) ::
            ctx.commonProcs }
      hget2 hcond
    simp only [hfi]
    rw [h2]
    simp only [findIdent, putIdent]
    refine ⟨?_, trivial, ?_⟩
    · rw [ctxStore_ctxStore_procs]
    · refine ⟨{ ctx with
          commonProcs := CommonProcEntry.identEntry (startedProc ueId emmProc idType ctx.fsmState) ::
              ctx.commonProcs },
        hget2, ?_, ?_⟩
      · simp [countIdent]
      · intro q hq
        simp only [findIdent, Option.some.injEq] at hq
        rw [← hq]
        rfl
  · have hget2 : emm_data_context_get
        (ctxStore st
          { ctx with
            commonProcs := putIdent ctx.commonProcs (startedProc ueId emmProc idType ctx.fsmState) })
        ueId =
        some
          { ctx with
            commonProcs := putIdent ctx.commonProcs (startedProc ueId emmProc idType ctx.fsmState) } :=
      get_ctxStore_self hget hcu
    have h2 := emm_proc_identification_ok_eq
      (ctxStore st
        { ctx with
          commonProcs := putIdent ctx.commonProcs (startedProc ueId emmProc idType ctx.fsmState) })
      ueId emmProc idType
      { ctx with
        commonProcs := putIdent ctx.commonProcs (startedProc ueId emmProc idType ctx.fsmState) }
      hget2 hcond
    have hfi2 : findIdent
        (putIdent ctx.commonProcs (startedProc ueId emmProc idType ctx.fsmState)) =
        some (startedProc ueId emmProc idType ctx.fsmState) :=
      findIdent_putIdent hfi _
    simp only [hfi]
    rw [h2]
    simp only [hfi2, putIdent_putIdent]
    refine ⟨?_, trivial, ?_⟩
    · rw [ctxStore_ctxStore_procs]
    · refine ⟨{ ctx with
          commonProcs := putIdent ctx.commonProcs (startedProc ueId emmProc idType ctx.fsmState) },
        hget2, ?_, ?_⟩
      · rw [countIdent_putIdent]
      · intro q hq
        rw [hfi2] at hq
        injection hq with hq
        rw [← hq]
        rfl

/-- Witness for C8: two starts in a row for subscriber 1 leave the same state
as one start. -/
theorem c8_start_idempotent_witness :
    (emm_proc_identification (emm_proc_identification wStA 1 none IdentityType.imsi true).st
        1 none IdentityType.imsi true).st =
      (emm_proc_identification wStA 1 none IdentityType.imsi true).st :=
  (c8_start_idempotent wStA 1 none IdentityType.imsi wCtxA (by decide) (Or.inl (by decide))).1

end OpenAirCn
